import Mathlib

/-!
Verification of the food-tracker summary backend.

This file shallowly embeds the timezone-aware summary aggregation engine of
the backend (`backend/main.py`), its list endpoint, the ingestion endpoint
(`create_foodlog`) and the nutrient-lookup helper
(`src/services/nutrition.py`), and proves the specification's claims about
them.

Conventions of the embedding:
* Instants are minutes since 0000-01-01T00:00 UTC (proleptic Gregorian),
  as `Int`.  All boundaries involved are midnights, so minute resolution
  is exact.
* Python `float` nutrient quantities are modelled as `Rat`; the claims
  under study concern grouping, ordering, summation and emptiness, none of
  which depend on rounding.
* Database rows are in-memory lists; SQL `SUM` returning `NULL` on an empty
  row set is modelled with `Option`, and Python's `x or 0` with `pyOrZero`.
-/

/-- A proleptic Gregorian calendar date (`datetime.date`). -/
structure Date where
  year : Nat
  month : Nat
  day : Nat
deriving DecidableEq

/-- Gregorian leap-year rule (as in Python's `calendar.isleap`). -/
def isLeap (y : Nat) : Bool := y % 4 == 0 && (y % 100 != 0 || y % 400 == 0)

/-- Number of days of month `m` of year `y` (months `1..12`). -/
def daysInMonth (y m : Nat) : Nat :=
  if m = 2 then (if isLeap y then 29 else 28)
  else if m = 4 ∨ m = 6 ∨ m = 9 ∨ m = 11 then 30
  else 31

/-- Number of leap years strictly below `y` (year `0` counts as leap). -/
def leapCount (y : Nat) : Nat := (y + 3) / 4 - (y + 99) / 100 + (y + 399) / 400

/-- Days from 0000-01-01 to the first day of year `y`. -/
def daysBeforeYear (y : Nat) : Nat := 365 * y + leapCount y

/-- Sum of the lengths of months `1..m` of year `y`. -/
def monthsAcc (y : Nat) : Nat → Nat
  | 0 => 0
  | m + 1 => monthsAcc y m + daysInMonth y (m + 1)

/-- Days from the first day of year `y` to the first day of its month `m`. -/
def daysBeforeMonth (y m : Nat) : Nat := monthsAcc y (m - 1)

/-- Day number of a date: days since 0000-01-01 (Python `date.toordinal`,
shifted by the fixed offset of one year).  Linear in each field, so windows
built from midnights are plain arithmetic on this value. -/
def toDays (dt : Date) : Nat :=
  daysBeforeYear dt.year + daysBeforeMonth dt.year dt.month + (dt.day - 1)

/-- A date is valid when its month and day are within calendar bounds. -/
def Date.Valid (dt : Date) : Prop :=
  1 ≤ dt.month ∧ dt.month ≤ 12 ∧ 1 ≤ dt.day ∧ dt.day ≤ daysInMonth dt.year dt.month

instance (dt : Date) : Decidable dt.Valid := by
  unfold Date.Valid; infer_instance

/-- The calendar successor of a date (what `date + timedelta(days=1)` does). -/
def nextDay (dt : Date) : Date :=
  if dt.day < daysInMonth dt.year dt.month then ⟨dt.year, dt.month, dt.day + 1⟩
  else if dt.month < 12 then ⟨dt.year, dt.month + 1, 1⟩
  else ⟨dt.year + 1, 1, 1⟩

/-- Calendar date addition, the embedding of Python `date + timedelta(days=n)`. -/
def Date.addDays (dt : Date) : Nat → Date
  | 0 => dt
  | n + 1 => nextDay (Date.addDays dt n)

/-- Inverse direction: the civil date of a day number (era-based algorithm;
used only by the modelled timezone rules to find the year of an instant). -/
def civilFromDays (z : Nat) : Date :=
  let s := z - 60
  let era := s / 146097
  let doe := s % 146097
  let yoe := (doe - doe / 1460 + doe / 36524 - doe / 146097) / 365
  let y0 := yoe + era * 400
  let doy := doe - (365 * yoe + yoe / 4 - yoe / 100)
  let mp := (5 * doy + 2) / 153
  let d := doy - (153 * mp + 2) / 5 + 1
  let m := if mp < 10 then mp + 3 else mp - 9
  if m ≤ 2 then ⟨y0 + 1, m, d⟩ else ⟨y0, m, d⟩

/-- Day of week of a day number, with Sunday = 0. -/
def dayOfWeek (n : Nat) : Nat := (n + 6) % 7

/-- Day of month of the second Sunday of March of year `y`. -/
def secondSundayInMarch (y : Nat) : Nat :=
  1 + (7 - dayOfWeek (toDays ⟨y, 3, 1⟩)) % 7 + 7

/-- Day of month of the first Sunday of November of year `y`. -/
def firstSundayInNovember (y : Nat) : Nat :=
  1 + (7 - dayOfWeek (toDays ⟨y, 11, 1⟩)) % 7

/-- Day of month of the last Sunday of March of year `y`. -/
def lastSundayInMarch (y : Nat) : Nat := 31 - dayOfWeek (toDays ⟨y, 3, 31⟩)

/-- Day of month of the last Sunday of October of year `y`. -/
def lastSundayInOctober (y : Nat) : Nat := 31 - dayOfWeek (toDays ⟨y, 10, 31⟩)

/-- Modelled from the spec: an IANA timezone, as consumed through
`zoneinfo.ZoneInfo` (the tz database itself is not part of the repository).
Per the spec's day-window property ("UTC duration may differ by ±1h across a
DST boundary"), a zone is a standard UTC offset in minutes plus a rule
saying at which local wall-clock minutes daylight saving time (a one-hour
shift) is in effect. -/
structure Timezone where
  stdOffset : Int
  isDST : Int → Bool

/-- UTC offset (minutes east) of a zone at a local wall-clock minute. -/
def Timezone.offsetAt (z : Timezone) (w : Int) : Int :=
  if z.isDST w then z.stdOffset + 60 else z.stdOffset

/-- Convert a local wall-clock minute to the UTC instant it denotes
(`datetime.replace(tzinfo=zone).astimezone(UTC)`). -/
def toUTC (z : Timezone) (w : Int) : Int := w - z.offsetAt w

/-- The UTC zone: offset 0, no DST. -/
def utcZone : Timezone := ⟨0, fun _ => false⟩

/-- Modelled from the spec: US central time (`America/Chicago`), standard
offset UTC-6, DST from 02:00 local on the second Sunday of March to 02:00
local on the first Sunday of November. -/
def chicagoZone : Timezone :=
  ⟨-360, fun w =>
    let y := (civilFromDays (w.toNat / 1440)).year
    decide (1440 * ((toDays ⟨y, 3, secondSundayInMarch y⟩ : Nat) : Int) + 120 ≤ w) &&
    decide (w < 1440 * ((toDays ⟨y, 11, firstSundayInNovember y⟩ : Nat) : Int) + 120)⟩

/-- Modelled from the spec: UK time (`Europe/London`), standard offset UTC+0,
DST from 01:00 local on the last Sunday of March to 02:00 local on the last
Sunday of October. -/
def londonZone : Timezone :=
  ⟨0, fun w =>
    let y := (civilFromDays (w.toNat / 1440)).year
    decide (1440 * ((toDays ⟨y, 3, lastSundayInMarch y⟩ : Nat) : Int) + 60 ≤ w) &&
    decide (w < 1440 * ((toDays ⟨y, 10, lastSundayInOctober y⟩ : Nat) : Int) + 120)⟩

/-- Modelled from the spec: the IANA zone registry lookup performed by
`ZoneInfo(tz)`, over the zones this development models; an unknown name
raises (here: `none`). -/
def resolveTimezone (name : String) : Option Timezone :=
  if name = "UTC" then some utcZone
  else if name = "America/Chicago" then some chicagoZone
  else if name = "Europe/London" then some londonZone
  else none

/-- Modelled from the spec: the upper year bound `datetime.now(UTC).year`
of the month/year query parameters, fixed at the current year. -/
def currentYear : Nat := 2026

/-! ## Data model (`src/models.py`) -/

/-- A persisted food-log entry (`FoodLog`): server-assigned id, free-text
food name, quantity, and a UTC timestamp (minutes). -/
structure FoodLog where
  id : Nat
  food_name : String
  quantity : Rat
  timestamp : Int
deriving DecidableEq

/-- A nutrition record attached to a food-log entry by foreign key
(`Nutrition`).  Only the four macro-nutrient fields are carried: they are
the only nutrient fields any specified operation reads; the micronutrient
columns default to `0.0` and are never consulted. -/
structure Nutrition where
  foodlog_id : Nat
  calories : Rat
  protein : Rat
  carbs : Rat
  fat : Rat
deriving DecidableEq

/-- The request body of `POST /foodlogs/` (`FoodLogCreate`). -/
structure FoodLogCreate where
  food_name : String
  quantity : Rat
deriving DecidableEq

/-- The database state: the two tables plus the autoincrement counter that
assigns primary keys to new `FoodLog` rows. -/
structure DB where
  foodlogs : List FoodLog
  nutritions : List Nutrition
  nextId : Nat
deriving DecidableEq

/-- The errors the embedded endpoints can signal: an unknown IANA timezone
name (`ZoneInfo` raising), a query parameter outside its declared bounds
(FastAPI validation), and the 404 raised by `create_foodlog`. -/
inductive ApiError where
  | invalidTimezone
  | validationFailed
  | notFound
deriving DecidableEq

/-- The `totals` object shared by the four summary responses. -/
structure Totals where
  calories : Rat
  protein : Rat
  carbs : Rat
  fat : Rat
deriving DecidableEq

/-- Response shape of `GET /summaries/daily`. -/
structure DailyResponse where
  date : Date
  timezone : String
  totals : Totals
  top_foods : List (String × Rat)
deriving DecidableEq

/-- Response shape of `GET /summaries/weekly`. -/
structure WeeklyResponse where
  week_start : Date
  week_end : Date
  timezone : String
  totals : Totals
  top_foods : List (String × Rat)
deriving DecidableEq

/-- Response shape of `GET /summaries/monthly`. -/
structure MonthlyResponse where
  year : Nat
  month : Nat
  totals : Totals
deriving DecidableEq

/-- Response shape of `GET /summaries/yearly`. -/
structure YearlyResponse where
  year : Nat
  totals : Totals
deriving DecidableEq

/-! ## Aggregation engine (`backend/main.py`) -/

/-- SQL `SUM`: `NULL` (`none`) over an empty row set, else the sum. -/
def sqlSum (l : List Rat) : Option Rat :=
  match l with
  | [] => none
  | _ => some l.sum

/-- Python `x or 0` applied to a nullable aggregate: `None` and `0.0` are
both falsy and give `0`; any other value passes through. -/
def pyOrZero (x : Option Rat) : Rat :=
  match x with
  | none => 0
  | some v => if v = 0 then 0 else v

/-- The inner join of `Nutrition` with `FoodLog` on
`Nutrition.foodlog_id = FoodLog.id`, used by every summary query.  A
nutrition record whose entry is missing contributes nothing; an entry with
no nutrition record (an orphan) appears in no joined row. -/
def joinedRows (db : DB) : List (FoodLog × Nutrition) :=
  db.nutritions.filterMap fun n =>
    (db.foodlogs.find? fun f => f.id == n.foodlog_id).map fun f => (f, n)

/-- The joined rows whose entry timestamp lies in the half-open UTC window
`[w.1, w.2)` (the `WHERE timestamp >= start AND timestamp < end` clause). -/
def rowsInWindow (db : DB) (w : Int × Int) : List (FoodLog × Nutrition) :=
  (joinedRows db).filter fun r =>
    decide (w.1 ≤ r.1.timestamp) && decide (r.1.timestamp < w.2)

/-- The `totals` object of a summary: per-field SQL `SUM` over the matching
rows, with `NULL` collapsed to `0` by `or 0`. -/
def mkTotals (rows : List (FoodLog × Nutrition)) : Totals :=
  { calories := pyOrZero (sqlSum (rows.map fun r => r.2.calories))
    protein := pyOrZero (sqlSum (rows.map fun r => r.2.protein))
    carbs := pyOrZero (sqlSum (rows.map fun r => r.2.carbs))
    fat := pyOrZero (sqlSum (rows.map fun r => r.2.fat)) }

/-- The distinct food names of the rows, in first-occurrence order: the
grouping keys of `GROUP BY food_name` (exact, case-sensitive string
equality), with the deterministic group order of the embedding. -/
def groupKeys (rows : List (FoodLog × Nutrition)) : List String :=
  rows.foldl (fun acc r => if r.1.food_name ∈ acc then acc else acc ++ [r.1.food_name]) []

/-- Summed calories of the rows whose food name is exactly `name`. -/
def caloriesFor (rows : List (FoodLog × Nutrition)) (name : String) : Rat :=
  ((rows.filter fun r => r.1.food_name == name).map fun r => r.2.calories).sum

/-- The `top_foods` query: group the matching rows by exact food name, sum
calories per group, `ORDER BY total_calories DESC`, `LIMIT 3`.  The SQL
text fixes no order among groups with equal sums; the embedding uses a
stable sort, so ties keep the deterministic first-occurrence group order. -/
def topFoods (rows : List (FoodLog × Nutrition)) : List (String × Rat) :=
  (List.insertionSort (fun a b : String × Rat => b.2 ≤ a.2)
    ((groupKeys rows).map fun k => (k, caloriesFor rows k))).take 3

/-! ## TimeWindow resolver (`backend/main.py`, lines 90-96, 145-151,
199-204, 234-235) -/

/-- The UTC query window of `daily_summary`: local midnight of the date to
local midnight plus 24 wall-clock hours, both converted to UTC through the
zone's offset rules. -/
def dailyWindowUtc (z : Timezone) (d : Date) : Int × Int :=
  (toUTC z (1440 * ((toDays d : Nat) : Int)),
   toUTC z (1440 * ((toDays d : Nat) : Int) + 1440))

/-- The UTC query window of `weekly_summary`: local midnight of the start
date to local midnight plus 7 times 24 wall-clock hours, both converted to
UTC. -/
def weeklyWindowUtc (z : Timezone) (d : Date) : Int × Int :=
  (toUTC z (1440 * ((toDays d : Nat) : Int)),
   toUTC z (1440 * ((toDays d : Nat) : Int) + 7 * 1440))

/-- The UTC query window of `monthly_summary`: first instant of the month
in UTC to first instant of the next month in UTC, rolling December into
January of the next year. -/
def monthlyWindowUtc (year month : Nat) : Int × Int :=
  (1440 * ((toDays ⟨year, month, 1⟩ : Nat) : Int),
   if month = 12 then 1440 * ((toDays ⟨year + 1, 1, 1⟩ : Nat) : Int)
   else 1440 * ((toDays ⟨year, month + 1, 1⟩ : Nat) : Int))

/-- The UTC query window of `yearly_summary`: Jan 1 of the year to Jan 1 of
the next year, in UTC. -/
def yearlyWindowUtc (year : Nat) : Int × Int :=
  (1440 * ((toDays ⟨year, 1, 1⟩ : Nat) : Int),
   1440 * ((toDays ⟨year + 1, 1, 1⟩ : Nat) : Int))

/-! ## Summary assembler (`backend/main.py`) -/

/-- `GET /summaries/daily?date&tz` (`daily_summary`). -/
def daily_summary (db : DB) (summary_date : Date) (tz : String) :
    Except ApiError DailyResponse :=
  match resolveTimezone tz with
  | none => .error .invalidTimezone
  | some z =>
    let rows := rowsInWindow db (dailyWindowUtc z summary_date)
    .ok { date := summary_date, timezone := tz,
          totals := mkTotals rows, top_foods := topFoods rows }

/-- `GET /summaries/weekly?start_date&tz` (`weekly_summary`).  The response
labels the week as `start_date` to `start_date + 6` calendar days while the
query window extends 7 local days. -/
def weekly_summary (db : DB) (start_date : Date) (tz : String) :
    Except ApiError WeeklyResponse :=
  match resolveTimezone tz with
  | none => .error .invalidTimezone
  | some z =>
    let rows := rowsInWindow db (weeklyWindowUtc z start_date)
    .ok { week_start := start_date, week_end := start_date.addDays 6,
          timezone := tz, totals := mkTotals rows, top_foods := topFoods rows }

/-- `GET /summaries/monthly?year&month` (`monthly_summary`), with the
query-parameter bounds `1900 ≤ year ≤ now().year` and `1 ≤ month ≤ 12`
enforced before the handler runs.  No timezone parameter: the window is
computed directly in UTC. -/
def monthly_summary (db : DB) (year month : Nat) :
    Except ApiError MonthlyResponse :=
  if 1900 ≤ year ∧ year ≤ currentYear ∧ 1 ≤ month ∧ month ≤ 12 then
    let rows := rowsInWindow db (monthlyWindowUtc year month)
    .ok { year := year, month := month, totals := mkTotals rows }
  else .error .validationFailed

/-- `GET /summaries/yearly?year` (`yearly_summary`), with the bound
`1900 ≤ year ≤ now().year` enforced before the handler runs. -/
def yearly_summary (db : DB) (year : Nat) : Except ApiError YearlyResponse :=
  if 1900 ≤ year ∧ year ≤ currentYear then
    let rows := rowsInWindow db (yearlyWindowUtc year)
    .ok { year := year, totals := mkTotals rows }
  else .error .validationFailed

/-! ## List endpoint (`backend/main.py`, `read_foodlogs`) -/

/-- `GET /foodlogs/?skip&limit&date`: optional single UTC day filter, order
by timestamp ascending, then offset and limit. -/
def read_foodlogs (db : DB) (skip limit : Nat) (log_date : Option Date) :
    List FoodLog :=
  let fl := match log_date with
    | none => db.foodlogs
    | some d =>
      db.foodlogs.filter fun f =>
        decide (1440 * ((toDays d : Nat) : Int) ≤ f.timestamp) &&
        decide (f.timestamp < 1440 * ((toDays d : Nat) : Int) + 1440)
  ((List.insertionSort (fun a b : FoodLog => a.timestamp ≤ b.timestamp) fl).drop
      skip).take limit

/-! ## Nutrient lookup (`src/services/nutrition.py`) -/

/-- The field names of the `Nutrition` model, used to initialize every
lookup result to all zeros (`ALL_FIELDS`). -/
def ALL_FIELDS : List String :=
  ["calories", "protein", "carbs", "fat", "sugars",
   "cholesterol", "sat_fat", "mono_fat", "poly_fat", "trans_fat",
   "vitamin_a", "beta_carotene", "vitamin_b1", "vitamin_b2",
   "vitamin_b3", "vitamin_b5", "vitamin_b6", "vitamin_b9",
   "vitamin_b12", "vitamin_c", "vitamin_d", "vitamin_e",
   "vitamin_k", "calcium", "iron", "magnesium", "phosphorus",
   "potassium", "sodium", "zinc", "copper", "manganese",
   "selenium", "chromium", "molybdenum", "fluoride"]

/-- The USDA nutrient-name to model-field map (`NUTRIENT_MAP`). -/
def NUTRIENT_MAP : List (String × String) :=
  [("Energy", "calories"),
   ("Protein", "protein"),
   ("Carbohydrate, by difference", "carbs"),
   ("Total lipid (fat)", "fat"),
   ("Sugars, total", "sugars"),
   ("Cholesterol", "cholesterol"),
   ("Fatty acids, total saturated", "sat_fat"),
   ("Fatty acids, total monounsaturated", "mono_fat"),
   ("Fatty acids, total polyunsaturated", "poly_fat"),
   ("Fatty acids, total trans", "trans_fat"),
   ("Vitamin A, RAE", "vitamin_a"),
   ("Beta-carotene", "beta_carotene"),
   ("Thiamin", "vitamin_b1"),
   ("Riboflavin", "vitamin_b2"),
   ("Niacin", "vitamin_b3"),
   ("Pantothenic acid", "vitamin_b5"),
   ("Vitamin B-6", "vitamin_b6"),
   ("Folate, total", "vitamin_b9"),
   ("Vitamin B-12", "vitamin_b12"),
   ("Vitamin C, total ascorbic acid", "vitamin_c"),
   ("Vitamin D (D2 + D3)", "vitamin_d"),
   ("Vitamin E (alpha-tocopherol)", "vitamin_e"),
   ("Vitamin K (phylloquinone)", "vitamin_k"),
   ("Calcium, Ca", "calcium"),
   ("Iron, Fe", "iron"),
   ("Magnesium, Mg", "magnesium"),
   ("Phosphorus, P", "phosphorus"),
   ("Potassium, K", "potassium"),
   ("Sodium, Na", "sodium"),
   ("Zinc, Zn", "zinc"),
   ("Copper, Cu", "copper"),
   ("Manganese, Mn", "manganese"),
   ("Selenium, Se", "selenium"),
   ("Chromium, Cr", "chromium"),
   ("Molybdenum, Mo", "molybdenum"),
   ("Fluoride, F", "fluoride")]

/-- A food hit in the FDC search response (only its presence matters). -/
structure FdcFood where
  fdcId : Nat
deriving DecidableEq

/-- One entry of the `foodNutrients` array of an FDC detail response,
collapsed to the name and value the source extracts from it. -/
structure FdcNutrient where
  name : String
  value : Rat
deriving DecidableEq

/-- Assignment `result[field] = value` on the association-list model of the
Python result dict: replaces the value at an existing key. -/
def updateField (data : List (String × Rat)) (k : String) (v : Rat) :
    List (String × Rat) :=
  data.map fun p => if p.1 == k then (p.1, v) else p

/-- `fetch_nutrition`, as a function of the two FDC responses it fetches:
initialize every model field to `0.0`; if the search found no foods, return
that all-zero mapping as is; otherwise overwrite the fields named by the
detail response's mapped nutrients.  Note the result always carries all 36
keys, so it is never an empty (falsy) dict. -/
def fetch_nutrition (foods : List FdcFood) (foodNutrients : List FdcNutrient) :
    List (String × Rat) :=
  let base := ALL_FIELDS.map fun f => (f, (0 : Rat))
  if foods.isEmpty then base
  else
    foodNutrients.foldl
      (fun acc nut =>
        match NUTRIENT_MAP.find? fun p => p.1 == nut.name with
        | some p => updateField acc p.2 nut.value
        | none => acc)
      base

/-! ## Ingestion (`backend/main.py`, `create_foodlog`) -/

/-- Value of key `k` in a lookup-result dict, `0` when absent. -/
def lookupVal (data : List (String × Rat)) (k : String) : Rat :=
  ((data.find? fun p => p.1 == k).map Prod.snd).getD 0

/-- Build the `Nutrition` row from `Nutrition(foodlog_id=..., **data)`. -/
def nutritionFromData (fid : Nat) (data : List (String × Rat)) : Nutrition :=
  { foodlog_id := fid
    calories := lookupVal data "calories"
    protein := lookupVal data "protein"
    carbs := lookupVal data "carbs"
    fat := lookupVal data "fat" }

/-- `POST /foodlogs/` (`create_foodlog`), as a function of the lookup
result it awaits: first insert and commit the `FoodLog` row (assigning the
next id and the current UTC time `now`), then, if the lookup result is
falsy (an empty dict), raise 404 — the committed entry stays; otherwise
insert the linked `Nutrition` row and return the entry.  The first
component of the result is the database state after the request. -/
def create_foodlog (db : DB) (payload : FoodLogCreate) (now : Int)
    (nutrition_data : List (String × Rat)) : DB × Except ApiError FoodLog :=
  let log : FoodLog :=
    { id := db.nextId, food_name := payload.food_name,
      quantity := payload.quantity, timestamp := now }
  let db1 : DB :=
    { db with foodlogs := db.foodlogs ++ [log], nextId := db.nextId + 1 }
  if nutrition_data.isEmpty then
    (db1, .error .notFound)
  else
    ({ db1 with nutritions := db1.nutritions ++ [nutritionFromData log.id nutrition_data] },
     .ok log)

/-! ## Calendar lemmas -/

/-- Every month has at least one day. -/
theorem daysInMonth_pos (y m : Nat) : 1 ≤ daysInMonth y m := by
  unfold daysInMonth
  split
  · split <;> decide
  · split <;> decide

/-- Counting leap years grows by one exactly across a leap year. -/
theorem leapCount_succ (y : Nat) :
    leapCount (y + 1) = leapCount y + (if isLeap y then 1 else 0) := by
  simp only [leapCount, isLeap, Bool.and_eq_true, beq_iff_eq, Bool.or_eq_true,
    bne_iff_ne, ne_eq, decide_eq_true_eq]
  split <;> rename_i hcond <;> omega

/-- Unfolding step for the cumulative month lengths. -/
theorem daysBeforeMonth_succ (y m : Nat) (h : 1 ≤ m) :
    daysBeforeMonth y (m + 1) = daysBeforeMonth y m + daysInMonth y m := by
  obtain ⟨k, rfl⟩ : ∃ k, m = k + 1 := ⟨m - 1, by omega⟩
  simp [daysBeforeMonth, monthsAcc]

/-- The cumulative length of months January through November. -/
theorem monthsAcc_eleven (y : Nat) :
    monthsAcc y 11 = 334 + (if isLeap y then 1 else 0) := by
  rcases Bool.eq_false_or_eq_true (isLeap y) with hb | hb <;>
    simp [monthsAcc, daysInMonth, hb]

/-- Day numbers advance by one under the calendar successor. -/
theorem toDays_nextDay (dt : Date) (h : dt.Valid) :
    toDays (nextDay dt) = toDays dt + 1 := by
  obtain ⟨h1, h2, h3, h4⟩ := h
  unfold nextDay
  split
  · simp only [toDays]
    omega
  · rename_i hge
    split
    · rename_i hlt12
      have hsucc := daysBeforeMonth_succ dt.year dt.month h1
      have hpos := daysInMonth_pos dt.year dt.month
      simp only [toDays]
      omega
    · rename_i hlt12
      have hm12 : dt.month = 12 := by omega
      have hd31 : daysInMonth dt.year 12 = 31 := by norm_num [daysInMonth]
      have hacc := monthsAcc_eleven dt.year
      have hlc := leapCount_succ dt.year
      have hb1 : daysBeforeMonth (dt.year + 1) 1 = 0 := rfl
      have hb12 : daysBeforeMonth dt.year 12 = monthsAcc dt.year 11 := rfl
      rw [hm12] at hge h4
      rw [hd31] at hge h4
      simp only [toDays, daysBeforeYear, hm12, hb1, hb12]
      rcases Bool.eq_false_or_eq_true (isLeap dt.year) with hb | hb <;>
        simp only [hb, if_true, if_false, Bool.false_eq_true] at hacc hlc <;> omega

/-- The calendar successor of a valid date is valid. -/
theorem valid_nextDay (dt : Date) (h : dt.Valid) : (nextDay dt).Valid := by
  obtain ⟨h1, h2, h3, h4⟩ := h
  unfold nextDay
  split
  · rename_i hlt
    exact ⟨h1, h2, (by omega : 1 ≤ dt.day + 1),
      (by omega : dt.day + 1 ≤ daysInMonth dt.year dt.month)⟩
  · rename_i hge
    split
    · rename_i hlt12
      exact ⟨(by omega : 1 ≤ dt.month + 1), (by omega : dt.month + 1 ≤ 12),
        le_refl 1, daysInMonth_pos _ _⟩
    · exact ⟨le_refl 1, (by norm_num : (1 : Nat) ≤ 12), le_refl 1,
        daysInMonth_pos _ _⟩

/-- Calendar addition of `n` days preserves validity and advances the day
number by exactly `n`. -/
theorem addDays_spec (dt : Date) (h : dt.Valid) (n : Nat) :
    (dt.addDays n).Valid ∧ toDays (dt.addDays n) = toDays dt + n := by
  induction n with
  | zero => exact ⟨h, rfl⟩
  | succ k ih =>
    refine ⟨valid_nextDay _ ih.1, ?_⟩
    show toDays (nextDay (dt.addDays k)) = _
    rw [toDays_nextDay _ ih.1, ih.2]
    omega

/-- Rolling to the first day of the next month (December rolls into January
of the next year) advances the day number by the month's length. -/
theorem month_roll (y m : Nat) (h1 : 1 ≤ m) (h2 : m ≤ 12) :
    (if m = 12 then toDays ⟨y + 1, 1, 1⟩ else toDays ⟨y, m + 1, 1⟩) =
      toDays ⟨y, m, 1⟩ + daysInMonth y m := by
  split
  · rename_i hm
    subst hm
    have hd31 : daysInMonth y 12 = 31 := by norm_num [daysInMonth]
    have hacc := monthsAcc_eleven y
    have hlc := leapCount_succ y
    have hb1 : daysBeforeMonth (y + 1) 1 = 0 := rfl
    have hb12 : daysBeforeMonth y 12 = monthsAcc y 11 := rfl
    simp only [toDays, daysBeforeYear, hb1, hb12, hd31]
    rcases Bool.eq_false_or_eq_true (isLeap y) with hb | hb <;>
      simp only [hb, if_true, if_false, Bool.false_eq_true] at hacc hlc <;> omega
  · rename_i hm
    have h12 : m < 12 := by omega
    have hsucc := daysBeforeMonth_succ y m h1
    simp only [toDays]
    omega

/-- A year is at least 365 days of the day-number scale. -/
theorem daysBeforeYear_succ (y : Nat) :
    daysBeforeYear (y + 1) = daysBeforeYear y + 365 + (if isLeap y then 1 else 0) := by
  have hlc := leapCount_succ y
  simp only [daysBeforeYear]
  omega

/-! ## Timezone lemmas -/

/-- A zone's offset at any wall-clock minute is its standard offset or the
standard offset shifted one hour by DST. -/
theorem offsetAt_cases (z : Timezone) (w : Int) :
    z.offsetAt w = z.stdOffset ∨ z.offsetAt w = z.stdOffset + 60 := by
  unfold Timezone.offsetAt
  split
  · right; rfl
  · left; rfl

/-! ## Claims about window resolution (C1, C2, C5, C6, C9) -/

/-- C9: for every timezone name the zone registry does not recognize, the
daily and weekly summary operations fail with the invalid-timezone error —
they neither succeed nor fail with a different error — for every database
and every anchor date. -/
theorem summaries_unknown_timezone (db : DB) (d sd : Date) (name : String)
    (h : resolveTimezone name = none) :
    daily_summary db d name = .error .invalidTimezone ∧
    weekly_summary db sd name = .error .invalidTimezone := by
  constructor
  · unfold daily_summary
    rw [h]
  · unfold weekly_summary
    rw [h]

/-- Witness for C9 at the spec's example zone name. -/
theorem summaries_unknown_timezone_witness :
    resolveTimezone "Not/AZone" = none ∧
    daily_summary ⟨[], [], 1⟩ ⟨2024, 1, 1⟩ "Not/AZone" = .error .invalidTimezone ∧
    weekly_summary ⟨[], [], 1⟩ ⟨2024, 1, 1⟩ "Not/AZone" = .error .invalidTimezone :=
  ⟨rfl,
   (summaries_unknown_timezone ⟨[], [], 1⟩ ⟨2024, 1, 1⟩ ⟨2024, 1, 1⟩ "Not/AZone" rfl).1,
   (summaries_unknown_timezone ⟨[], [], 1⟩ ⟨2024, 1, 1⟩ ⟨2024, 1, 1⟩ "Not/AZone" rfl).2⟩

/-- C2: for every input accepted by the four summary operations (a
registry-resolvable timezone for day and week; in-bounds year and month for
month and year), the resolved UTC query window is half-open and non-empty:
its end strictly exceeds its start. -/
theorem windows_nonempty (name : String) (z : Timezone) (d sd : Date)
    (y m yy : Nat) (hz : resolveTimezone name = some z)
    (hm1 : 1 ≤ m) (hm2 : m ≤ 12) (hy1 : 1900 ≤ y) (hy2 : y ≤ currentYear)
    (hyy1 : 1900 ≤ yy) (hyy2 : yy ≤ currentYear) :
    (dailyWindowUtc z d).1 < (dailyWindowUtc z d).2 ∧
    (weeklyWindowUtc z sd).1 < (weeklyWindowUtc z sd).2 ∧
    (monthlyWindowUtc y m).1 < (monthlyWindowUtc y m).2 ∧
    (yearlyWindowUtc yy).1 < (yearlyWindowUtc yy).2 := by
  refine ⟨?_, ?_, ?_, ?_⟩
  · have o1 := offsetAt_cases z (1440 * ((toDays d : Nat) : Int))
    have o2 := offsetAt_cases z (1440 * ((toDays d : Nat) : Int) + 1440)
    simp only [dailyWindowUtc, toUTC]
    rcases o1 with o1 | o1 <;> rcases o2 with o2 | o2 <;> rw [o1, o2] <;> omega
  · have o1 := offsetAt_cases z (1440 * ((toDays sd : Nat) : Int))
    have o2 := offsetAt_cases z (1440 * ((toDays sd : Nat) : Int) + 7 * 1440)
    simp only [weeklyWindowUtc, toUTC]
    rcases o1 with o1 | o1 <;> rcases o2 with o2 | o2 <;> rw [o1, o2] <;> omega
  · have hroll := month_roll y m hm1 hm2
    have hpos := daysInMonth_pos y m
    by_cases h12 : m = 12
    · subst h12
      simp only [monthlyWindowUtc] at hroll ⊢
      norm_num at hroll ⊢
      omega
    · simp only [monthlyWindowUtc, if_neg h12] at hroll ⊢
      omega
  · have hy := daysBeforeYear_succ yy
    have h1 : toDays ⟨yy, 1, 1⟩ = daysBeforeYear yy := by
      simp [toDays, daysBeforeMonth, monthsAcc]
    have h2 : toDays ⟨yy + 1, 1, 1⟩ = daysBeforeYear (yy + 1) := by
      simp [toDays, daysBeforeMonth, monthsAcc]
    simp only [yearlyWindowUtc, h1, h2]
    rcases Bool.eq_false_or_eq_true (isLeap yy) with hb | hb <;>
      simp only [hb, if_true, if_false, Bool.false_eq_true] at hy <;> omega

/-- Witness for C2 at concrete accepted inputs. -/
theorem windows_nonempty_witness :
    resolveTimezone "America/Chicago" = some chicagoZone ∧
    ((dailyWindowUtc chicagoZone ⟨2024, 3, 10⟩).1 <
        (dailyWindowUtc chicagoZone ⟨2024, 3, 10⟩).2 ∧
     (weeklyWindowUtc chicagoZone ⟨2024, 3, 10⟩).1 <
        (weeklyWindowUtc chicagoZone ⟨2024, 3, 10⟩).2 ∧
     (monthlyWindowUtc 2024 5).1 < (monthlyWindowUtc 2024 5).2 ∧
     (yearlyWindowUtc 2024).1 < (yearlyWindowUtc 2024).2) :=
  ⟨rfl,
   windows_nonempty "America/Chicago" chicagoZone ⟨2024, 3, 10⟩ ⟨2024, 3, 10⟩
     2024 5 2024 rfl (by norm_num) (by norm_num) (by norm_num)
     (by norm_num [currentYear]) (by norm_num) (by norm_num [currentYear])⟩

/-- C1: for every valid date and every timezone the registry resolves, the
daily aggregation window is midnight-to-midnight of that date in the zone,
converted to UTC: the local wall-clock window is exactly 24 wall-clock
hours and ends at the next calendar day's local midnight, and the UTC
duration is 23, 24 or 25 hours according to the zone's DST transitions on
that day. -/
theorem daily_window_one_local_day (d : Date) (name : String) (z : Timezone)
    (hd : d.Valid) (hz : resolveTimezone name = some z) :
    1440 * ((toDays (d.addDays 1) : Nat) : Int) =
      1440 * ((toDays d : Nat) : Int) + 1440 ∧
    dailyWindowUtc z d =
      (toUTC z (1440 * ((toDays d : Nat) : Int)),
       toUTC z (1440 * ((toDays (d.addDays 1) : Nat) : Int))) ∧
    ((dailyWindowUtc z d).2 - (dailyWindowUtc z d).1 = 23 * 60 ∨
     (dailyWindowUtc z d).2 - (dailyWindowUtc z d).1 = 24 * 60 ∨
     (dailyWindowUtc z d).2 - (dailyWindowUtc z d).1 = 25 * 60) := by
  have hadd := (addDays_spec d hd 1).2
  have h1 : 1440 * ((toDays (d.addDays 1) : Nat) : Int) =
      1440 * ((toDays d : Nat) : Int) + 1440 := by
    rw [hadd]; push_cast; ring
  refine ⟨h1, ?_, ?_⟩
  · simp only [dailyWindowUtc, h1]
  · have o1 := offsetAt_cases z (1440 * ((toDays d : Nat) : Int))
    have o2 := offsetAt_cases z (1440 * ((toDays d : Nat) : Int) + 1440)
    simp only [dailyWindowUtc, toUTC]
    rcases o1 with o1 | o1 <;> rcases o2 with o2 | o2 <;> rw [o1, o2] <;> omega

/-- Witness for C1 on the 2024 US spring-forward date in Chicago. -/
theorem daily_window_one_local_day_witness :
    (⟨2024, 3, 10⟩ : Date).Valid ∧
    resolveTimezone "America/Chicago" = some chicagoZone ∧
    (1440 * ((toDays ((⟨2024, 3, 10⟩ : Date).addDays 1) : Nat) : Int) =
       1440 * ((toDays (⟨2024, 3, 10⟩ : Date) : Nat) : Int) + 1440 ∧
     dailyWindowUtc chicagoZone ⟨2024, 3, 10⟩ =
       (toUTC chicagoZone (1440 * ((toDays (⟨2024, 3, 10⟩ : Date) : Nat) : Int)),
        toUTC chicagoZone
          (1440 * ((toDays ((⟨2024, 3, 10⟩ : Date).addDays 1) : Nat) : Int))) ∧
     ((dailyWindowUtc chicagoZone ⟨2024, 3, 10⟩).2 -
          (dailyWindowUtc chicagoZone ⟨2024, 3, 10⟩).1 = 23 * 60 ∨
      (dailyWindowUtc chicagoZone ⟨2024, 3, 10⟩).2 -
          (dailyWindowUtc chicagoZone ⟨2024, 3, 10⟩).1 = 24 * 60 ∨
      (dailyWindowUtc chicagoZone ⟨2024, 3, 10⟩).2 -
          (dailyWindowUtc chicagoZone ⟨2024, 3, 10⟩).1 = 25 * 60)) :=
  ⟨by decide, rfl,
   daily_window_one_local_day ⟨2024, 3, 10⟩ "America/Chicago" chicagoZone
     (by decide) rfl⟩

/-- C5: for every accepted year and every month 1..12, the monthly window
runs from the first instant of (year, month) in UTC to the first instant of
the next month in UTC, with December rolling into January of the following
year; the window spans exactly the month's number of days, and month 5
ends at June 1. -/
theorem monthly_window_rollover (y m : Nat) (hy1 : 1900 ≤ y)
    (hy2 : y ≤ currentYear) (hm1 : 1 ≤ m) (hm2 : m ≤ 12) :
    (monthlyWindowUtc y m).1 = 1440 * ((toDays ⟨y, m, 1⟩ : Nat) : Int) ∧
    (monthlyWindowUtc y m).2 =
      (if m = 12 then 1440 * ((toDays ⟨y + 1, 1, 1⟩ : Nat) : Int)
       else 1440 * ((toDays ⟨y, m + 1, 1⟩ : Nat) : Int)) ∧
    (monthlyWindowUtc y m).2 =
      (monthlyWindowUtc y m).1 + 1440 * ((daysInMonth y m : Nat) : Int) ∧
    (monthlyWindowUtc y 5).2 = 1440 * ((toDays ⟨y, 6, 1⟩ : Nat) : Int) := by
  have hroll := month_roll y m hm1 hm2
  refine ⟨rfl, rfl, ?_, by norm_num [monthlyWindowUtc]⟩
  by_cases h12 : m = 12 <;>
    simp only [monthlyWindowUtc, h12, if_true, if_false] at hroll ⊢ <;>
    rw [hroll] <;> push_cast <;> ring

/-- Witness for C5 at year 2024, months 12 and 5. -/
theorem monthly_window_rollover_witness :
    ((monthlyWindowUtc 2024 12).1 = 1440 * ((toDays ⟨2024, 12, 1⟩ : Nat) : Int) ∧
     (monthlyWindowUtc 2024 12).2 =
       (if 12 = 12 then 1440 * ((toDays ⟨2024 + 1, 1, 1⟩ : Nat) : Int)
        else 1440 * ((toDays ⟨2024, 12 + 1, 1⟩ : Nat) : Int)) ∧
     (monthlyWindowUtc 2024 12).2 =
       (monthlyWindowUtc 2024 12).1 + 1440 * ((daysInMonth 2024 12 : Nat) : Int) ∧
     (monthlyWindowUtc 2024 5).2 = 1440 * ((toDays ⟨2024, 6, 1⟩ : Nat) : Int)) :=
  monthly_window_rollover 2024 12 (by norm_num) (by norm_num [currentYear])
    (by norm_num) (by norm_num)

/-- C6: for every valid start date and every timezone the registry
resolves, the weekly aggregation window runs from local midnight of the
start date to local midnight seven local days later (both converted to
UTC), while the week_end label of the response equals start_date plus six
calendar days. -/
theorem weekly_window_and_label (db : DB) (sd : Date) (name : String)
    (z : Timezone) (hd : sd.Valid) (hz : resolveTimezone name = some z) :
    weeklyWindowUtc z sd =
      (toUTC z (1440 * ((toDays sd : Nat) : Int)),
       toUTC z (1440 * ((toDays (sd.addDays 7) : Nat) : Int))) ∧
    (weekly_summary db sd name).map (fun r => r.week_end) =
      .ok (sd.addDays 6) := by
  constructor
  · have hadd := (addDays_spec sd hd 7).2
    have h7 : 1440 * ((toDays (sd.addDays 7) : Nat) : Int) =
        1440 * ((toDays sd : Nat) : Int) + 7 * 1440 := by
      rw [hadd]; push_cast; ring
    simp only [weeklyWindowUtc, h7]
  · unfold weekly_summary
    rw [hz]
    simp [Except.map]

/-- Witness for C6 on a week that crosses a year boundary, in UTC. -/
theorem weekly_window_and_label_witness :
    (⟨2025, 12, 29⟩ : Date).Valid ∧
    resolveTimezone "UTC" = some utcZone ∧
    (weeklyWindowUtc utcZone ⟨2025, 12, 29⟩ =
       (toUTC utcZone (1440 * ((toDays (⟨2025, 12, 29⟩ : Date) : Nat) : Int)),
        toUTC utcZone
          (1440 * ((toDays ((⟨2025, 12, 29⟩ : Date).addDays 7) : Nat) : Int))) ∧
     (weekly_summary ⟨[], [], 1⟩ ⟨2025, 12, 29⟩ "UTC").map (fun r => r.week_end) =
       .ok ((⟨2025, 12, 29⟩ : Date).addDays 6)) :=
  ⟨by decide, rfl,
   weekly_window_and_label ⟨[], [], 1⟩ ⟨2025, 12, 29⟩ "UTC" utcZone (by decide) rfl⟩

/-! ## Reduction of the summary operations in the success case -/

/-- `daily_summary` on a resolvable zone: window, totals, top foods. -/
theorem daily_summary_ok (db : DB) (d : Date) (name : String) (z : Timezone)
    (hz : resolveTimezone name = some z) :
    daily_summary db d name =
      .ok { date := d, timezone := name,
            totals := mkTotals (rowsInWindow db (dailyWindowUtc z d)),
            top_foods := topFoods (rowsInWindow db (dailyWindowUtc z d)) } := by
  unfold daily_summary
  rw [hz]

/-- `weekly_summary` on a resolvable zone: window, labels, totals, top
foods. -/
theorem weekly_summary_ok (db : DB) (sd : Date) (name : String) (z : Timezone)
    (hz : resolveTimezone name = some z) :
    weekly_summary db sd name =
      .ok { week_start := sd, week_end := sd.addDays 6, timezone := name,
            totals := mkTotals (rowsInWindow db (weeklyWindowUtc z sd)),
            top_foods := topFoods (rowsInWindow db (weeklyWindowUtc z sd)) } := by
  unfold weekly_summary
  rw [hz]

/-- `monthly_summary` on accepted parameters. -/
theorem monthly_summary_ok (db : DB) (y m : Nat)
    (h : 1900 ≤ y ∧ y ≤ currentYear ∧ 1 ≤ m ∧ m ≤ 12) :
    monthly_summary db y m =
      .ok { year := y, month := m,
            totals := mkTotals (rowsInWindow db (monthlyWindowUtc y m)) } := by
  unfold monthly_summary
  rw [if_pos h]

/-- `yearly_summary` on an accepted year. -/
theorem yearly_summary_ok (db : DB) (y : Nat)
    (h : 1900 ≤ y ∧ y ≤ currentYear) :
    yearly_summary db y =
      .ok { year := y,
            totals := mkTotals (rowsInWindow db (yearlyWindowUtc y)) } := by
  unfold yearly_summary
  rw [if_pos h]

/-! ## Claims about aggregation over empty windows (C4) -/

/-- The entry of every joined row comes from the foodlogs table. -/
theorem joined_fst_mem (db : DB) (r : FoodLog × Nutrition)
    (hr : r ∈ joinedRows db) : r.1 ∈ db.foodlogs := by
  unfold joinedRows at hr
  rw [List.mem_filterMap] at hr
  obtain ⟨n, hn, hmap⟩ := hr
  cases hf : db.foodlogs.find? fun f => f.id == n.foodlog_id with
  | none => rw [hf] at hmap; simp at hmap
  | some f =>
    rw [hf] at hmap
    simp only [Option.map_some', Option.some.injEq] at hmap
    subst hmap
    exact List.mem_of_find?_eq_some hf

/-- If no entry's timestamp is in the window, no joined row survives the
window filter. -/
theorem rowsInWindow_nil (db : DB) (w : Int × Int)
    (h : ∀ f ∈ db.foodlogs, ¬(w.1 ≤ f.timestamp ∧ f.timestamp < w.2)) :
    rowsInWindow db w = [] := by
  unfold rowsInWindow
  rw [List.filter_eq_nil]
  intro r hr
  have h2 := h r.1 (joined_fst_mem db r hr)
  simp only [Bool.and_eq_true, decide_eq_true_eq]
  exact h2

/-- C4: over a window containing zero matching entries, each of the four
summary operations succeeds and returns totals whose calories, protein,
carbs and fat are all 0 (never null or absent), with an empty top_foods
list for daily and weekly. -/
theorem empty_window_zero_totals (db : DB) (d sd : Date) (name : String)
    (z : Timezone) (y m yy : Nat) (hz : resolveTimezone name = some z)
    (hym : 1900 ≤ y ∧ y ≤ currentYear ∧ 1 ≤ m ∧ m ≤ 12)
    (hyy : 1900 ≤ yy ∧ yy ≤ currentYear)
    (hd : ∀ f ∈ db.foodlogs,
      ¬((dailyWindowUtc z d).1 ≤ f.timestamp ∧
        f.timestamp < (dailyWindowUtc z d).2))
    (hw : ∀ f ∈ db.foodlogs,
      ¬((weeklyWindowUtc z sd).1 ≤ f.timestamp ∧
        f.timestamp < (weeklyWindowUtc z sd).2))
    (hmn : ∀ f ∈ db.foodlogs,
      ¬((monthlyWindowUtc y m).1 ≤ f.timestamp ∧
        f.timestamp < (monthlyWindowUtc y m).2))
    (hyn : ∀ f ∈ db.foodlogs,
      ¬((yearlyWindowUtc yy).1 ≤ f.timestamp ∧
        f.timestamp < (yearlyWindowUtc yy).2)) :
    daily_summary db d name =
      .ok { date := d, timezone := name, totals := ⟨0, 0, 0, 0⟩,
            top_foods := [] } ∧
    weekly_summary db sd name =
      .ok { week_start := sd, week_end := sd.addDays 6, timezone := name,
            totals := ⟨0, 0, 0, 0⟩, top_foods := [] } ∧
    monthly_summary db y m =
      .ok { year := y, month := m, totals := ⟨0, 0, 0, 0⟩ } ∧
    yearly_summary db yy = .ok { year := yy, totals := ⟨0, 0, 0, 0⟩ } := by
  have e1 := rowsInWindow_nil db (dailyWindowUtc z d) hd
  have e2 := rowsInWindow_nil db (weeklyWindowUtc z sd) hw
  have e3 := rowsInWindow_nil db (monthlyWindowUtc y m) hmn
  have e4 := rowsInWindow_nil db (yearlyWindowUtc yy) hyn
  refine ⟨?_, ?_, ?_, ?_⟩
  · rw [daily_summary_ok db d name z hz, e1]
    rfl
  · rw [weekly_summary_ok db sd name z hz, e2]
    rfl
  · rw [monthly_summary_ok db y m hym, e3]
    rfl
  · rw [yearly_summary_ok db yy hyy, e4]
    rfl

/-- Witness for C4 on the empty database. -/
theorem empty_window_zero_totals_witness :
    resolveTimezone "UTC" = some utcZone ∧
    (daily_summary ⟨[], [], 1⟩ ⟨2024, 1, 1⟩ "UTC" =
       .ok { date := ⟨2024, 1, 1⟩, timezone := "UTC", totals := ⟨0, 0, 0, 0⟩,
             top_foods := [] } ∧
     weekly_summary ⟨[], [], 1⟩ ⟨2024, 1, 1⟩ "UTC" =
       .ok { week_start := ⟨2024, 1, 1⟩,
             week_end := (⟨2024, 1, 1⟩ : Date).addDays 6, timezone := "UTC",
             totals := ⟨0, 0, 0, 0⟩, top_foods := [] } ∧
     monthly_summary ⟨[], [], 1⟩ 2024 5 =
       .ok { year := 2024, month := 5, totals := ⟨0, 0, 0, 0⟩ } ∧
     yearly_summary ⟨[], [], 1⟩ 2024 =
       .ok { year := 2024, totals := ⟨0, 0, 0, 0⟩ }) :=
  ⟨rfl,
   empty_window_zero_totals ⟨[], [], 1⟩ ⟨2024, 1, 1⟩ ⟨2024, 1, 1⟩ "UTC" utcZone
     2024 5 2024 rfl
     (by norm_num [currentYear]) (by norm_num [currentYear])
     (by simp) (by simp) (by simp) (by simp)⟩

/-! ## Claims about top-food ranking (C3) -/

instance : IsTotal (String × Rat) fun a b => b.2 ≤ a.2 :=
  ⟨fun a b => le_total b.2 a.2⟩

instance : IsTrans (String × Rat) fun a b => b.2 ≤ a.2 :=
  ⟨fun _ _ _ h1 h2 => le_trans h2 h1⟩

/-- Every key produced by the grouping fold is in the accumulator or among
the rows' food names. -/
theorem groupKeys_aux (rows : List (FoodLog × Nutrition)) :
    ∀ (acc : List String) (k : String),
      k ∈ rows.foldl
          (fun acc r => if r.1.food_name ∈ acc then acc else acc ++ [r.1.food_name])
          acc →
      k ∈ acc ∨ k ∈ rows.map fun r => r.1.food_name := by
  induction rows with
  | nil => intro acc k h; exact .inl h
  | cons r rs ih =>
    intro acc k h
    rw [List.foldl_cons] at h
    rcases ih _ k h with h1 | h1
    · by_cases hc : r.1.food_name ∈ acc
      · rw [if_pos hc] at h1
        exact .inl h1
      · rw [if_neg hc] at h1
        rcases List.mem_append.mp h1 with h2 | h2
        · exact .inl h2
        · right
          rw [List.mem_singleton] at h2
          rw [List.map_cons, h2]
          exact List.mem_cons_self _ _
    · right
      rw [List.map_cons]
      exact List.mem_cons_of_mem _ h1

/-- The grouping keys all come from the rows. -/
theorem groupKeys_subset (rows : List (FoodLog × Nutrition)) :
    ∀ k ∈ groupKeys rows, k ∈ rows.map fun r => r.1.food_name := by
  intro k hk
  rcases groupKeys_aux rows [] k hk with h | h
  · simp at h
  · exact h

/-- Every food name occurring among the rows survives the grouping fold,
whatever the accumulator. -/
theorem groupKeys_complete_aux (rows : List (FoodLog × Nutrition)) :
    ∀ (acc : List String) (k : String),
      k ∈ acc ∨ k ∈ rows.map (fun r => r.1.food_name) →
      k ∈ rows.foldl
          (fun acc r => if r.1.food_name ∈ acc then acc else acc ++ [r.1.food_name])
          acc := by
  induction rows with
  | nil =>
    intro acc k h
    rcases h with h | h
    · exact h
    · simp at h
  | cons r rs ih =>
    intro acc k h
    rw [List.foldl_cons]
    apply ih
    by_cases hc : r.1.food_name ∈ acc
    · rw [if_pos hc]
      rcases h with h | h
      · exact .inl h
      · rw [List.map_cons, List.mem_cons] at h
        rcases h with h | h
        · exact .inl (by rw [h]; exact hc)
        · exact .inr h
    · rw [if_neg hc]
      rcases h with h | h
      · exact .inl (List.mem_append_left _ h)
      · rw [List.map_cons, List.mem_cons] at h
        rcases h with h | h
        · exact .inl (List.mem_append_right _ (List.mem_singleton.mpr h))
        · exact .inr h

/-- The grouping keys cover every food name occurring among the rows. -/
theorem groupKeys_complete (rows : List (FoodLog × Nutrition)) :
    ∀ k ∈ rows.map (fun r => r.1.food_name), k ∈ groupKeys rows := by
  intro k hk
  exact groupKeys_complete_aux rows [] k (.inr hk)

/-- Structure of the top-food list: exactly min(3, number of distinct food
names) groups, sorted descending by summed calories, every reported pair an
occurring food name with the exact-match calorie sum of its group, and
every unlisted group summing to at most every listed sum. -/
theorem topFoods_spec (rows : List (FoodLog × Nutrition)) :
    (topFoods rows).length = min 3 (groupKeys rows).length ∧
    List.Pairwise (fun a b : String × Rat => b.2 ≤ a.2) (topFoods rows) ∧
    (∀ p ∈ topFoods rows,
      p.2 = ((rows.filter fun x => x.1.food_name == p.1).map
          fun x => x.2.calories).sum ∧
      p.1 ∈ rows.map fun x => x.1.food_name) ∧
    ∀ k ∈ rows.map fun x => x.1.food_name,
      k ∉ (topFoods rows).map Prod.fst →
      ∀ p ∈ topFoods rows,
        ((rows.filter fun x => x.1.food_name == k).map
          fun x => x.2.calories).sum ≤ p.2 := by
  refine ⟨?_, ?_, ?_, ?_⟩
  · unfold topFoods
    rw [List.length_take,
      (List.perm_insertionSort (fun a b : String × Rat => b.2 ≤ a.2) _).length_eq,
      List.length_map]
  · unfold topFoods
    exact List.Pairwise.sublist (List.take_sublist _ _)
      (List.sorted_insertionSort _ _)
  · intro p hp
    unfold topFoods at hp
    have hp2 := List.mem_of_mem_take hp
    have hp3 := (List.perm_insertionSort
      (fun a b : String × Rat => b.2 ≤ a.2) _).mem_iff.mp hp2
    rw [List.mem_map] at hp3
    obtain ⟨k, hk, hpk⟩ := hp3
    subst hpk
    exact ⟨rfl, groupKeys_subset rows k hk⟩
  · intro k hk hnot p hp
    have hkg := groupKeys_complete rows k hk
    have hpair : (k, caloriesFor rows k) ∈
        (groupKeys rows).map fun kk => (kk, caloriesFor rows kk) :=
      List.mem_map.mpr ⟨k, hkg, rfl⟩
    have hl : (k, caloriesFor rows k) ∈
        List.insertionSort (fun a b : String × Rat => b.2 ≤ a.2)
          ((groupKeys rows).map fun kk => (kk, caloriesFor rows kk)) :=
      (List.perm_insertionSort _ _).mem_iff.mpr hpair
    rw [← List.take_append_drop 3
      (List.insertionSort (fun a b : String × Rat => b.2 ≤ a.2)
        ((groupKeys rows).map fun kk => (kk, caloriesFor rows kk)))] at hl
    rcases List.mem_append.mp hl with hin | hin
    · exact absurd (List.mem_map_of_mem Prod.fst hin) hnot
    · exact (List.sorted_insertionSort
        (fun a b : String × Rat => b.2 ≤ a.2) _).rel_of_mem_take_of_mem_drop
        hp hin

/-- The top_foods list of a daily summary response (empty on error). -/
def dailyTop (db : DB) (d : Date) (tz : String) : List (String × Rat) :=
  match daily_summary db d tz with
  | .ok r => r.top_foods
  | .error _ => []

/-- The top_foods list of a weekly summary response (empty on error). -/
def weeklyTop (db : DB) (sd : Date) (tz : String) : List (String × Rat) :=
  match weekly_summary db sd tz with
  | .ok r => r.top_foods
  | .error _ => []

/-- C3 (amended): for every database and query window, the top_foods list
returned by daily_summary and weekly_summary groups matching entries by
exact case-sensitive food_name, sums calories per group, contains exactly
min(3, number of distinct matching food names) groups, and is sorted
descending by summed calories, every unlisted group summing to at most
every listed sum.  The relative order of groups with equal summed calories
is left unspecified by the query (the SQL fixes no secondary sort key) —
in particular it is not food_name ascending. -/
theorem top_foods_grouped_sorted (db : DB) (d sd : Date) (name : String)
    (z : Timezone) (hz : resolveTimezone name = some z) :
    ((dailyTop db d name).length =
      min 3 (groupKeys (rowsInWindow db (dailyWindowUtc z d))).length ∧
    List.Pairwise (fun a b : String × Rat => b.2 ≤ a.2) (dailyTop db d name) ∧
    (∀ p ∈ dailyTop db d name,
      p.2 = (((rowsInWindow db (dailyWindowUtc z d)).filter
          fun x => x.1.food_name == p.1).map fun x => x.2.calories).sum ∧
      p.1 ∈ (rowsInWindow db (dailyWindowUtc z d)).map
        fun x => x.1.food_name) ∧
    ∀ k ∈ (rowsInWindow db (dailyWindowUtc z d)).map fun x => x.1.food_name,
      k ∉ (dailyTop db d name).map Prod.fst →
      ∀ p ∈ dailyTop db d name,
        (((rowsInWindow db (dailyWindowUtc z d)).filter
          fun x => x.1.food_name == k).map fun x => x.2.calories).sum ≤ p.2) ∧
    ((weeklyTop db sd name).length =
      min 3 (groupKeys (rowsInWindow db (weeklyWindowUtc z sd))).length ∧
    List.Pairwise (fun a b : String × Rat => b.2 ≤ a.2) (weeklyTop db sd name) ∧
    (∀ p ∈ weeklyTop db sd name,
      p.2 = (((rowsInWindow db (weeklyWindowUtc z sd)).filter
          fun x => x.1.food_name == p.1).map fun x => x.2.calories).sum ∧
      p.1 ∈ (rowsInWindow db (weeklyWindowUtc z sd)).map
        fun x => x.1.food_name) ∧
    ∀ k ∈ (rowsInWindow db (weeklyWindowUtc z sd)).map fun x => x.1.food_name,
      k ∉ (weeklyTop db sd name).map Prod.fst →
      ∀ p ∈ weeklyTop db sd name,
        (((rowsInWindow db (weeklyWindowUtc z sd)).filter
          fun x => x.1.food_name == k).map fun x => x.2.calories).sum ≤ p.2) := by
  have hdt : dailyTop db d name =
      topFoods (rowsInWindow db (dailyWindowUtc z d)) := by
    unfold dailyTop
    rw [daily_summary_ok db d name z hz]
  have hwt : weeklyTop db sd name =
      topFoods (rowsInWindow db (weeklyWindowUtc z sd)) := by
    unfold weeklyTop
    rw [weekly_summary_ok db sd name z hz]
  rw [hdt, hwt]
  exact ⟨topFoods_spec (rowsInWindow db (dailyWindowUtc z d)),
    topFoods_spec (rowsInWindow db (weeklyWindowUtc z sd))⟩

/-- A timestamp inside 2024-01-01 UTC, for the concrete databases. -/
def tsJan1 : Int := 1440 * ((toDays ⟨2024, 1, 1⟩ : Nat) : Int) + 600

/-- Two equal-calorie entries, "banana" inserted before "apple". -/
def dbTie : DB :=
  ⟨[⟨1, "banana", 1, tsJan1⟩, ⟨2, "apple", 1, tsJan1⟩],
   [⟨1, 100, 0, 0, 0⟩, ⟨2, 100, 0, 0, 0⟩], 3⟩

/-- The ordering asserted by the claim as stated: strictly descending by
summed calories, ties broken by food name ascending. -/
def ClaimC3Order (l : List (String × Rat)) : Prop :=
  List.Pairwise
    (fun a b : String × Rat => b.2 < a.2 ∨ (a.2 = b.2 ∧ a.1.data < b.1.data)) l

/-- The joined rows of `dbTie` inside the 2024-01-01 UTC day window. -/
def tieRows : List (FoodLog × Nutrition) :=
  [(⟨1, "banana", 1, tsJan1⟩, ⟨1, 100, 0, 0, 0⟩),
   (⟨2, "apple", 1, tsJan1⟩, ⟨2, 100, 0, 0, 0⟩)]

/-- C3 counterexample: with two equal-calorie groups the code reports them
in first-occurrence order, "banana" before "apple", so the tie is not
broken by food_name ascending as the claim states. -/
theorem top_foods_tiebreak_counterexample :
    dailyTop dbTie ⟨2024, 1, 1⟩ "UTC" = [("banana", 100), ("apple", 100)] ∧
    ¬ClaimC3Order (dailyTop dbTie ⟨2024, 1, 1⟩ "UTC") := by
  have hrows : rowsInWindow dbTie (dailyWindowUtc utcZone ⟨2024, 1, 1⟩) = tieRows := by
    norm_num [rowsInWindow, joinedRows, dbTie, dailyWindowUtc, toUTC, utcZone,
      Timezone.offsetAt, tsJan1, tieRows, List.find?, List.filterMap, List.filter]
  have hkeys : groupKeys tieRows = ["banana", "apple"] := by decide
  have hcb : caloriesFor tieRows "banana" = 100 := by
    have e1 : ("apple" == "banana") = false := by decide
    have e2 : ("banana" == "banana") = true := by decide
    norm_num [caloriesFor, tieRows, List.filter, e1, e2]
  have hca : caloriesFor tieRows "apple" = 100 := by
    have e1 : ("banana" == "apple") = false := by decide
    have e2 : ("apple" == "apple") = true := by decide
    norm_num [caloriesFor, tieRows, List.filter, e1, e2]
  have htop : dailyTop dbTie ⟨2024, 1, 1⟩ "UTC" = [("banana", 100), ("apple", 100)] := by
    unfold dailyTop
    rw [daily_summary_ok dbTie ⟨2024, 1, 1⟩ "UTC" utcZone rfl]
    show topFoods (rowsInWindow dbTie (dailyWindowUtc utcZone ⟨2024, 1, 1⟩)) = _
    rw [hrows]
    unfold topFoods
    rw [hkeys]
    simp only [List.map_cons, List.map_nil]
    rw [hcb, hca]
    norm_num [List.insertionSort, List.orderedInsert]
  refine ⟨htop, ?_⟩
  rw [htop]
  intro h
  rcases List.pairwise_cons.mp h with ⟨h1, h2⟩
  rcases h1 ("apple", 100) (List.mem_singleton.mpr rfl) with h3 | h3
  · exact absurd h3 (by norm_num)
  · have hlt := h3.2
    revert hlt
    decide

/-- Witness for the amended C3 on the concrete tie database. -/
theorem top_foods_grouped_sorted_witness :
    resolveTimezone "UTC" = some utcZone ∧
    (((dailyTop dbTie ⟨2024, 1, 1⟩ "UTC").length =
       min 3 (groupKeys (rowsInWindow dbTie
         (dailyWindowUtc utcZone ⟨2024, 1, 1⟩))).length ∧
     List.Pairwise (fun a b : String × Rat => b.2 ≤ a.2)
       (dailyTop dbTie ⟨2024, 1, 1⟩ "UTC") ∧
     (∀ p ∈ dailyTop dbTie ⟨2024, 1, 1⟩ "UTC",
       p.2 = (((rowsInWindow dbTie (dailyWindowUtc utcZone ⟨2024, 1, 1⟩)).filter
           fun x => x.1.food_name == p.1).map fun x => x.2.calories).sum ∧
       p.1 ∈ (rowsInWindow dbTie (dailyWindowUtc utcZone ⟨2024, 1, 1⟩)).map
         fun x => x.1.food_name) ∧
     ∀ k ∈ (rowsInWindow dbTie (dailyWindowUtc utcZone ⟨2024, 1, 1⟩)).map
         fun x => x.1.food_name,
       k ∉ (dailyTop dbTie ⟨2024, 1, 1⟩ "UTC").map Prod.fst →
       ∀ p ∈ dailyTop dbTie ⟨2024, 1, 1⟩ "UTC",
         (((rowsInWindow dbTie (dailyWindowUtc utcZone ⟨2024, 1, 1⟩)).filter
           fun x => x.1.food_name == k).map fun x => x.2.calories).sum ≤ p.2) ∧
    ((weeklyTop dbTie ⟨2024, 1, 1⟩ "UTC").length =
       min 3 (groupKeys (rowsInWindow dbTie
         (weeklyWindowUtc utcZone ⟨2024, 1, 1⟩))).length ∧
     List.Pairwise (fun a b : String × Rat => b.2 ≤ a.2)
       (weeklyTop dbTie ⟨2024, 1, 1⟩ "UTC") ∧
     (∀ p ∈ weeklyTop dbTie ⟨2024, 1, 1⟩ "UTC",
       p.2 = (((rowsInWindow dbTie (weeklyWindowUtc utcZone ⟨2024, 1, 1⟩)).filter
           fun x => x.1.food_name == p.1).map fun x => x.2.calories).sum ∧
       p.1 ∈ (rowsInWindow dbTie (weeklyWindowUtc utcZone ⟨2024, 1, 1⟩)).map
         fun x => x.1.food_name) ∧
     ∀ k ∈ (rowsInWindow dbTie (weeklyWindowUtc utcZone ⟨2024, 1, 1⟩)).map
         fun x => x.1.food_name,
       k ∉ (weeklyTop dbTie ⟨2024, 1, 1⟩ "UTC").map Prod.fst →
       ∀ p ∈ weeklyTop dbTie ⟨2024, 1, 1⟩ "UTC",
         (((rowsInWindow dbTie (weeklyWindowUtc utcZone ⟨2024, 1, 1⟩)).filter
           fun x => x.1.food_name == k).map fun x => x.2.calories).sum ≤ p.2)) :=
  ⟨rfl, top_foods_grouped_sorted dbTie ⟨2024, 1, 1⟩ ⟨2024, 1, 1⟩ "UTC" utcZone rfl⟩

/-! ## Claims about ingestion and orphan entries (C7, C8, C10) -/

/-- C7, the code evaluated at the failing input: when the FDC search
returns no foods, `fetch_nutrition` returns the truthy all-zero 36-key
mapping, so `create_foodlog` does not raise the 404: it returns the created
entry (201) and persists an all-zero nutrition row.  The 404 branch guarded
by `if not nutrition_data` is unreachable. -/
theorem create_foodlog_succeeds_on_no_match :
    (fetch_nutrition [] []).isEmpty = false ∧
    (create_foodlog ⟨[], [], 1⟩ ⟨"qwerty123", 1⟩ 0 (fetch_nutrition [] [])).2 =
      .ok ⟨1, "qwerty123", 1, 0⟩ ∧
    (create_foodlog ⟨[], [], 1⟩ ⟨"qwerty123", 1⟩ 0 (fetch_nutrition [] [])).1 =
      ⟨[⟨1, "qwerty123", 1, 0⟩], [⟨1, 0, 0, 0, 0⟩], 2⟩ :=
  ⟨rfl, rfl, rfl⟩

/-- A list query with skip 0 and a limit at least the table size returns
every stored entry. -/
theorem read_foodlogs_complete (db : DB) (limit : Nat)
    (h : db.foodlogs.length ≤ limit) :
    ∀ f ∈ db.foodlogs, f ∈ read_foodlogs db 0 limit none := by
  intro f hf
  show f ∈ ((List.insertionSort (fun a b : FoodLog => a.timestamp ≤ b.timestamp)
    db.foodlogs).drop 0).take limit
  rw [List.drop_zero]
  have hperm := List.perm_insertionSort
    (fun a b : FoodLog => a.timestamp ≤ b.timestamp) db.foodlogs
  rw [List.take_of_length_le (by rw [hperm.length_eq]; exact h)]
  exact hperm.mem_iff.mpr hf

/-- C8: whenever create_foodlog fails after the initial persist step (the
lookup collaborator returned an empty, falsy mapping), the already
persisted entry is not rolled back: the post-request database contains it
with its server-assigned id, and a subsequent list query returns it. -/
theorem orphan_entry_not_rolled_back (db : DB) (payload : FoodLogCreate)
    (now : Int) (nd : List (String × Rat)) (e : ApiError)
    (hfail : (create_foodlog db payload now nd).2 = .error e) :
    (⟨db.nextId, payload.food_name, payload.quantity, now⟩ : FoodLog) ∈
      (create_foodlog db payload now nd).1.foodlogs ∧
    ∀ limit : Nat,
      (create_foodlog db payload now nd).1.foodlogs.length ≤ limit →
      (⟨db.nextId, payload.food_name, payload.quantity, now⟩ : FoodLog) ∈
        read_foodlogs (create_foodlog db payload now nd).1 0 limit none := by
  by_cases hne : nd.isEmpty = true
  · constructor
    · simp only [create_foodlog, hne, if_true]
      exact List.mem_append_right _ (List.mem_singleton.mpr rfl)
    · intro limit hlim
      refine read_foodlogs_complete _ limit hlim _ ?_
      simp only [create_foodlog, hne, if_true]
      exact List.mem_append_right _ (List.mem_singleton.mpr rfl)
  · exfalso
    simp [create_foodlog, hne] at hfail

/-- Witness for C8: an empty collaborator mapping at a concrete request. -/
theorem orphan_entry_not_rolled_back_witness :
    (create_foodlog ⟨[], [], 1⟩ ⟨"qwerty123", 2⟩ 0 []).2 = .error .notFound ∧
    ((⟨1, "qwerty123", 2, 0⟩ : FoodLog) ∈
       (create_foodlog ⟨[], [], 1⟩ ⟨"qwerty123", 2⟩ 0 []).1.foodlogs ∧
     ∀ limit : Nat,
       (create_foodlog ⟨[], [], 1⟩ ⟨"qwerty123", 2⟩ 0 []).1.foodlogs.length ≤
         limit →
       (⟨1, "qwerty123", 2, 0⟩ : FoodLog) ∈
         read_foodlogs (create_foodlog ⟨[], [], 1⟩ ⟨"qwerty123", 2⟩ 0 []).1 0
           limit none) :=
  ⟨rfl,
   orphan_entry_not_rolled_back ⟨[], [], 1⟩ ⟨"qwerty123", 2⟩ 0 [] .notFound rfl⟩

/-- Appending an entry referenced by no nutrition row leaves the inner join
unchanged. -/
theorem joinedRows_append_orphan (db : DB) (o : FoodLog)
    (h : ∀ n ∈ db.nutritions, n.foodlog_id ≠ o.id) :
    joinedRows { db with foodlogs := db.foodlogs ++ [o] } = joinedRows db := by
  unfold joinedRows
  dsimp only
  apply List.filterMap_congr
  intro n hn
  have hfo : (o.id == n.foodlog_id) = false := by
    rw [beq_eq_false_iff_ne]
    intro he
    exact h n hn he.symm
  have hsingle : ([o].find? fun f => f.id == n.foodlog_id) = none := by
    simp [List.find?, hfo]
  have hfind : ((db.foodlogs ++ [o]).find? fun f => f.id == n.foodlog_id) =
      db.foodlogs.find? fun f => f.id == n.foodlog_id := by
    rw [List.find?_append, hsingle]
    cases db.foodlogs.find? fun f => f.id == n.foodlog_id <;> rfl
  rw [hfind]

/-- Appending an unreferenced entry leaves every windowed row set
unchanged. -/
theorem rowsInWindow_append_orphan (db : DB) (o : FoodLog)
    (h : ∀ n ∈ db.nutritions, n.foodlog_id ≠ o.id) (w : Int × Int) :
    rowsInWindow { db with foodlogs := db.foodlogs ++ [o] } w =
      rowsInWindow db w := by
  unfold rowsInWindow
  rw [joinedRows_append_orphan db o h]

/-- C10: an orphan entry (one that no nutrition row references) is returned
by list queries but contributes nothing to any summary: appending it to the
database leaves the outputs of all four summary operations unchanged, for
every anchor input, because every summary query inner-joins entries with
nutrition rows. -/
theorem orphan_entry_invisible_to_summaries (db : DB) (o : FoodLog)
    (href : ∀ n ∈ db.nutritions, n.foodlog_id ≠ o.id)
    (d sd : Date) (name : String) (y m yy : Nat) :
    (∀ limit : Nat, (db.foodlogs ++ [o]).length ≤ limit →
      o ∈ read_foodlogs { db with foodlogs := db.foodlogs ++ [o] } 0 limit
            none) ∧
    daily_summary { db with foodlogs := db.foodlogs ++ [o] } d name =
      daily_summary db d name ∧
    weekly_summary { db with foodlogs := db.foodlogs ++ [o] } sd name =
      weekly_summary db sd name ∧
    monthly_summary { db with foodlogs := db.foodlogs ++ [o] } y m =
      monthly_summary db y m ∧
    yearly_summary { db with foodlogs := db.foodlogs ++ [o] } yy =
      yearly_summary db yy := by
  refine ⟨?_, ?_, ?_, ?_, ?_⟩
  · intro limit hlim
    exact read_foodlogs_complete _ limit hlim o
      (List.mem_append_right _ (List.mem_singleton.mpr rfl))
  · cases hres : resolveTimezone name with
    | none =>
      unfold daily_summary
      rw [hres]
    | some z =>
      rw [daily_summary_ok _ d name z hres, daily_summary_ok db d name z hres,
        rowsInWindow_append_orphan db o href]
  · cases hres : resolveTimezone name with
    | none =>
      unfold weekly_summary
      rw [hres]
    | some z =>
      rw [weekly_summary_ok _ sd name z hres,
        weekly_summary_ok db sd name z hres,
        rowsInWindow_append_orphan db o href]
  · by_cases hcond : 1900 ≤ y ∧ y ≤ currentYear ∧ 1 ≤ m ∧ m ≤ 12
    · rw [monthly_summary_ok _ y m hcond, monthly_summary_ok db y m hcond,
        rowsInWindow_append_orphan db o href]
    · unfold monthly_summary
      rw [if_neg hcond, if_neg hcond]
  · by_cases hcond : 1900 ≤ yy ∧ yy ≤ currentYear
    · rw [yearly_summary_ok _ yy hcond, yearly_summary_ok db yy hcond,
        rowsInWindow_append_orphan db o href]
    · unfold yearly_summary
      rw [if_neg hcond, if_neg hcond]

/-- One entry with a nutrition row, for the C10 witness. -/
def dbOne : DB := ⟨[⟨1, "apple", 1, tsJan1⟩], [⟨1, 95, 0, 0, 0⟩], 2⟩

/-- An orphan entry no nutrition row references. -/
def ghost : FoodLog := ⟨2, "ghost", 1, tsJan1⟩

/-- Witness for C10 on a concrete database and orphan. -/
theorem orphan_entry_invisible_to_summaries_witness :
    (∀ n ∈ dbOne.nutritions, n.foodlog_id ≠ ghost.id) ∧
    ((∀ limit : Nat, (dbOne.foodlogs ++ [ghost]).length ≤ limit →
        ghost ∈ read_foodlogs
          { dbOne with foodlogs := dbOne.foodlogs ++ [ghost] } 0 limit none) ∧
     daily_summary { dbOne with foodlogs := dbOne.foodlogs ++ [ghost] }
         ⟨2024, 1, 1⟩ "UTC" =
       daily_summary dbOne ⟨2024, 1, 1⟩ "UTC" ∧
     weekly_summary { dbOne with foodlogs := dbOne.foodlogs ++ [ghost] }
         ⟨2024, 1, 1⟩ "UTC" =
       weekly_summary dbOne ⟨2024, 1, 1⟩ "UTC" ∧
     monthly_summary { dbOne with foodlogs := dbOne.foodlogs ++ [ghost] }
         2024 5 =
       monthly_summary dbOne 2024 5 ∧
     yearly_summary { dbOne with foodlogs := dbOne.foodlogs ++ [ghost] }
         2024 =
       yearly_summary dbOne 2024) :=
  ⟨by decide,
   orphan_entry_invisible_to_summaries dbOne ghost (by decide) ⟨2024, 1, 1⟩
     ⟨2024, 1, 1⟩ "UTC" 2024 5 2024⟩
